import Mathlib

/-!
Verification development for the review-analytics pipeline of the
sentiment-analyzer repository.  The repository ships the web dashboard
(TypeScript / React) in source form; the analytics backend is visible only
through its API response types (part_005) and the dashboard code that
consumes it, so backend components are modelled from the specification,
while all dashboard-side computations (regional map data, sentiment
filters, NPS gauge geometry, radar normalization, trend-page statistics)
are embedded directly from the TypeScript source.  JavaScript numbers are
modelled as rationals; a JavaScript division returning a non-finite value
(NaN from 0/0) is modelled as an Option that is none.
-/

namespace SentimentAnalyzer

/-- Sentiment label of a scored review, per the API types and the spec. -/
inductive Label where
  | positive
  | neutral
  | negative
deriving DecidableEq, Repr

/-- Character-level splitter behind tokenize: walks the text, lowercases
each character, splits at spaces and drops empty tokens; acc carries the
current token reversed. -/
def splitTokens : List Char → List Char → List String
  | [], acc => if acc.isEmpty then [] else [String.mk acc.reverse]
  | c :: rest, acc =>
    if c = ' ' then
      if acc.isEmpty then splitTokens rest []
      else String.mk acc.reverse :: splitTokens rest []
    else splitTokens rest (c.toLower :: acc)

/-- Modelled from the spec (§4.1): lowercasing tokenization of a review
text on spaces, dropping empty tokens.  The backend scorer is not under
src/; only its API response types are. -/
def tokenize (text : String) : List String :=
  splitTokens text.toList []

/-- Modelled from the spec (§4.1, §9): the static scorer configuration, a
base polarity lexicon plus a domain override table, passed explicitly. -/
structure ScorerConfig where
  base : String → ℚ
  domain : String → Option ℚ
  negations : List String
  intensifiers : List String

/-- Modelled from the spec (§4.1): domain terms overwrite the base
lexicon valence for matched tokens. -/
def valence (cfg : ScorerConfig) (t : String) : ℚ :=
  match cfg.domain t with
  | some v => v
  | none => cfg.base t

/-- Modelled from the spec (§4.1): raw lexicon sum over the tokens, where
a preceding negation flips the sign of the contribution of the following token
and an intensifier scales the magnitude of the following token (by 3/2). -/
def rawScoreAux (cfg : ScorerConfig) : List String → Bool → ℚ → ℚ
  | [], _, _ => 0
  | t :: rest, negFlag, inten =>
    if t ∈ cfg.negations then rawScoreAux cfg rest true 1
    else if t ∈ cfg.intensifiers then rawScoreAux cfg rest negFlag (3 / 2)
    else (if negFlag then -1 else 1) * inten * valence cfg t + rawScoreAux cfg rest false 1

/-- Modelled from the spec (§4.1): the raw lexicon score of a text. -/
def rawScore (cfg : ScorerConfig) (text : String) : ℚ :=
  rawScoreAux cfg (tokenize text) false 1

/-- Modelled from the spec (§4.1): the raw score is normalized into
[-1, 1]; the VADER-style damped normalization x / (|x| + 15) is used, a
strictly monotone map of the rationals into (-1, 1). -/
def normalizeCompound (x : ℚ) : ℚ :=
  x / (|x| + 15)

/-- Modelled from the spec (§4.1): label thresholds on the compound
score; compound at least 1/20 is positive, compound at most -1/20 is
negative, anything strictly between is neutral. -/
def labelOf (c : ℚ) : Label :=
  if c ≥ 1 / 20 then Label.positive
  else if c ≤ -(1 / 20) then Label.negative
  else Label.neutral

/-- Result of scoring one text, per the spec contract of score. -/
structure ScoreResult where
  compound : ℚ
  label : Label
deriving DecidableEq, Repr

/-- Modelled from the spec (§4.1): score of a single text, a pure
function of the text and the static configuration.  An empty or
whitespace-only text has no tokens, hence raw score 0, compound 0 and a
neutral label, as the spec requires. -/
def score (cfg : ScorerConfig) (text : String) : ScoreResult :=
  let c := normalizeCompound (rawScore cfg text)
  { compound := c, label := labelOf c }

/-- Regional sentiment record of the map page (part_001, interface
RegionData).  JavaScript numbers are rationals; the review and mention
counts are Math.floor results, hence integers. -/
structure RegionData where
  id : String
  name : String
  country : String
  lat : ℚ
  lng : ℚ
  reviewCount : ℤ
  mentionCount : ℤ
  sentimentScore : ℚ
  topKeywords : List String
deriving DecidableEq, Repr

/-- Dashboard fields consumed by generateRegionalData (part_001 line 65):
review_count and overview.avg_sentiment. -/
structure DashboardSummary where
  review_count : ℚ
  avg_sentiment : ℚ
deriving DecidableEq, Repr

/-- Embeds generateRegionalData (part_001 lines 65-178).  Each of the
nine regions draws one fresh Math.random() value; the ambient entropy of
those calls is made explicit as the stream rand, whose values lie in
[0, 1), indexed in call order.  Every sentimentScore is clamped into
[-1, 1] at the end (lines 174-177). -/
def generateRegionalData (dashboard : Option DashboardSummary) (rand : ℕ → ℚ) :
    List RegionData :=
  match dashboard with
  | none => []
  | some dash =>
    let baseScore := dash.avg_sentiment
    let totalReviews := dash.review_count
    let regions : List RegionData :=
      [ { id := "usa", name := "USA", country := "United States",
          lat := 39.8283, lng := -98.5795,
          reviewCount := ⌊totalReviews * 0.35⌋,
          mentionCount := ⌊totalReviews * 0.35 * 0.8⌋,
          sentimentScore := baseScore + (rand 0 * 0.2 - 0.1),
          topKeywords := ["quality", "fast shipping", "great product"] },
        { id := "uk", name := "United Kingdom", country := "United Kingdom",
          lat := 55.3781, lng := -3.4360,
          reviewCount := ⌊totalReviews * 0.15⌋,
          mentionCount := ⌊totalReviews * 0.15 * 0.75⌋,
          sentimentScore := baseScore + (rand 1 * 0.3 - 0.15),
          topKeywords := ["excellent service", "good value", "reliable"] },
        { id := "germany", name := "Germany", country := "Germany",
          lat := 51.1657, lng := 10.4515,
          reviewCount := ⌊totalReviews * 0.12⌋,
          mentionCount := ⌊totalReviews * 0.12 * 0.65⌋,
          sentimentScore := baseScore - 0.15 + rand 2 * 0.2,
          topKeywords := ["präzise", "schnelle Lieferung", "hochwertig"] },
        { id := "france", name := "France", country := "France",
          lat := 46.2276, lng := 2.2137,
          reviewCount := ⌊totalReviews * 0.08⌋,
          mentionCount := ⌊totalReviews * 0.08 * 0.7⌋,
          sentimentScore := baseScore - 0.25 + rand 3 * 0.1,
          topKeywords := ["bonne qualité", "service client", "livraison"] },
        { id := "brazil", name := "Brazil", country := "Brazil",
          lat := -14.2350, lng := -51.9253,
          reviewCount := ⌊totalReviews * 0.06⌋,
          mentionCount := ⌊totalReviews * 0.06 * 0.6⌋,
          sentimentScore := baseScore + 0.1 + rand 4 * 0.15,
          topKeywords := ["ótimo produto", "entrega rápida", "recomendo"] },
        { id := "india", name := "India", country := "India",
          lat := 20.5937, lng := 78.9629,
          reviewCount := ⌊totalReviews * 0.1⌋,
          mentionCount := ⌊totalReviews * 0.1 * 0.85⌋,
          sentimentScore := baseScore + 0.2 + rand 5 * 0.15,
          topKeywords := ["best quality", "value for money", "excellent"] },
        { id := "china", name := "China", country := "China",
          lat := 35.8617, lng := 104.1954,
          reviewCount := ⌊totalReviews * 0.08⌋,
          mentionCount := ⌊totalReviews * 0.08 * 0.5⌋,
          sentimentScore := baseScore + 0.3 + rand 6 * 0.1,
          topKeywords := ["高质量", "快速发货", "推荐"] },
        { id := "australia", name := "Australia", country := "Australia",
          lat := -25.2744, lng := 133.7751,
          reviewCount := ⌊totalReviews * 0.04⌋,
          mentionCount := ⌊totalReviews * 0.04 * 0.9⌋,
          sentimentScore := baseScore + 0.05 + rand 7 * 0.1,
          topKeywords := ["great quality", "fast delivery", "love it"] },
        { id := "taiwan", name := "Taiwan", country := "Taiwan",
          lat := 23.6978, lng := 120.9605,
          reviewCount := ⌊totalReviews * 0.02⌋,
          mentionCount := ⌊totalReviews * 0.02 * 0.5⌋,
          sentimentScore := baseScore + 0.15 + rand 8 * 0.15,
          topKeywords := ["品質好", "出貨快", "推薦"] } ]
    regions.map (fun r =>
      { r with sentimentScore := max (-1) (min 1 r.sentimentScore) })

/-- Embeds filteredData of the map page (part_001 lines 273-278): the
sentiment filter keeps regions with score above 1/10 (positive), below
-1/10 (negative), or in [-1/10, 1/10] (the final branch, reached for the
neutral selection), and returns everything for the all selection. -/
def filteredData (regionalData : List RegionData) (filterSentiment : String) :
    List RegionData :=
  if filterSentiment = "all" then regionalData
  else if filterSentiment = "positive" then
    regionalData.filter (fun r => decide (r.sentimentScore > 1 / 10))
  else if filterSentiment = "negative" then
    regionalData.filter (fun r => decide (r.sentimentScore < -(1 / 10)))
  else
    regionalData.filter (fun r =>
      decide (r.sentimentScore ≥ -(1 / 10)) && decide (r.sentimentScore ≤ 1 / 10))

/-- Embeds the gauge normalization of nps-gauge.tsx line 65: an NPS score
in [-100, 100] is mapped to [0, 1]. -/
def normalizedScore (scoreValue : ℚ) : ℚ :=
  (scoreValue + 100) / 200

/-- Embeds the needle angle of nps-gauge.tsx line 66.  Math.PI is
modelled as an arbitrary positive rational piv, so every statement proved
for all positive piv holds in particular for the double Math.PI. -/
def npsNeedleAngle (piv scoreValue : ℚ) : ℚ :=
  piv + normalizedScore scoreValue * piv

/-- Embeds the radar-chart normalization of the aspects page
(aspects/page.tsx line 130): Math.round((avg_sentiment + 1) * 50), with
Math.round x = ⌊x + 1/2⌋ on rationals. -/
def radarSentiment (avgSentiment : ℚ) : ℤ :=
  round ((avgSentiment + 1) * 50)

/-- A normalized input review (§3 of the spec, pipeline input). -/
structure Review where
  id : String
  text : String
  timestamp : Option ℕ
deriving DecidableEq, Repr

/-- A scored review (§3): review fields plus compound and label. -/
structure ScoredReview where
  id : String
  text : String
  timestamp : Option ℕ
  compound : ℚ
  label : Label
deriving DecidableEq, Repr

/-- NPS metrics record, after the NPSMetrics interface of part_005 lines
32-41; percentages are rationals and nps_proxy is rounded to an integer. -/
structure NPSMetrics where
  nps_proxy : ℤ
  promoters : ℕ
  promoters_pct : ℚ
  passives : ℕ
  passives_pct : ℚ
  detractors : ℕ
  detractors_pct : ℚ
  total : ℕ
deriving DecidableEq, Repr

/-- Modelled from the spec (§4.4): a review is a promoter when its
compound exceeds 1/2. -/
def isPromoter (c : ℚ) : Bool :=
  decide (c > 1 / 2)

/-- Modelled from the spec (§4.4): a review is a detractor when its
compound is below -3/10. -/
def isDetractor (c : ℚ) : Bool :=
  decide (c < -(3 / 10))

/-- Modelled from the spec (§4.4): compute_nps_proxy over the compound
scores of a corpus; nps_proxy is the rounded difference of the promoter
and detractor percentages.  The backend is not under src/; only the
NPSMetrics response type and the gauge that displays it are. -/
def computeNpsProxy (cs : List ℚ) : NPSMetrics :=
  let total := cs.length
  let promoters := (cs.filter isPromoter).length
  let detractors := (cs.filter isDetractor).length
  let passives := total - promoters - detractors
  let ppct := (promoters : ℚ) / total * 100
  let dpct := (detractors : ℚ) / total * 100
  { nps_proxy := round (ppct - dpct),
    promoters := promoters, promoters_pct := ppct,
    passives := passives, passives_pct := (passives : ℚ) / total * 100,
    detractors := detractors, detractors_pct := dpct,
    total := total }

/-- An aspect definition (§3): key, display label and trigger terms. -/
structure AspectDefinition where
  key : String
  display_label : String
  trigger_terms : List String
deriving DecidableEq, Repr

/-- Aggregate record per aspect, after the AspectItem interface of
part_005 lines 65-73. -/
structure AspectItem where
  aspect : String
  aspect_key : String
  avg_sentiment : ℚ
  mentions : ℕ
  positive_pct : ℚ
  negative_pct : ℚ
deriving DecidableEq, Repr

/-- Modelled from the spec (§4.3): a review matches an aspect when any
trigger term occurs among the lowercased tokens of its text. -/
def matchesAspect (d : AspectDefinition) (text : String) : Bool :=
  d.trigger_terms.any (fun t => (tokenize text).contains t)

/-- Modelled from the spec (§4.3): the reviews matching an aspect. -/
def mentionsOf (d : AspectDefinition) (rs : List ScoredReview) : List ScoredReview :=
  rs.filter (fun r => matchesAspect d r.text)

/-- Modelled from the spec (§4.3): the attribute operation aggregates
the matching reviews of each aspect; an aspect with zero mentions yields no
output record at all (the filterMap returns none), so no zero-division
artifact can be emitted. -/
def attributeAspects (rs : List ScoredReview) (defs : List AspectDefinition) :
    List AspectItem :=
  defs.filterMap (fun d =>
    let ms := mentionsOf d rs
    if ms.length = 0 then none
    else some
      { aspect := d.display_label, aspect_key := d.key,
        avg_sentiment := (ms.map (fun r => r.compound)).sum / ms.length,
        mentions := ms.length,
        positive_pct :=
          ((ms.filter (fun r => r.label = Label.positive)).length : ℚ) / ms.length * 100,
        negative_pct :=
          ((ms.filter (fun r => r.label = Label.negative)).length : ℚ) / ms.length * 100 })

/-- Mean of a list of rationals (0 for the empty list, as 0/0 = 0). -/
def meanOf (xs : List ℚ) : ℚ :=
  xs.sum / xs.length

/-- Population variance of a list of rationals. -/
def varianceOf (xs : List ℚ) : ℚ :=
  ((xs.map (fun x => (x - meanOf xs) ^ 2)).sum) / xs.length

/-- Spike direction of an anomaly, after part_005 lines 97-101. -/
inductive SpikeType where
  | positive_spike
  | negative_spike
deriving DecidableEq, Repr

/-- An anomaly record, after the AnomalyItem interface of part_005 lines
97-101; periods are indices into the series, and the z-score is carried
squared (z_sq = z ^ 2) so the arithmetic stays exact in ℚ. -/
structure AnomalyItem where
  period : ℕ
  spike : SpikeType
  z_sq : ℚ
deriving DecidableEq, Repr

/-- Modelled from the spec (§4.4): anomaly detection flags a period
whose z-score magnitude exceeds the threshold, rendered division-free as
(x - mean) ^ 2 > threshold ^ 2 * variance; a zero-variance series is
guarded so no division is attempted and no anomaly is reported. -/
def detectAnomalies (xs : List ℚ) (threshold : ℚ) : List AnomalyItem :=
  let m := meanOf xs
  let v := varianceOf xs
  if v = 0 then []
  else
    xs.enum.filterMap (fun p =>
      if (p.2 - m) ^ 2 > threshold ^ 2 * v then
        some { period := p.1,
               spike := if p.2 > m then SpikeType.positive_spike
                        else SpikeType.negative_spike,
               z_sq := (p.2 - m) ^ 2 / v }
      else none)

/-- Modelled from the spec (§4.4): the trailing window of up to three
periods ending at index i, the data the moving average at i covers. -/
def window3 (xs : List ℚ) (i : ℕ) : List ℚ :=
  ((xs.take (i + 1)).reverse).take 3

/-- Modelled from the spec (§4.4): simple moving average with a trailing
window of three periods; before the window is full it averages over the
available periods, whose count is at least one, so no division by zero. -/
def movingAvg3 (xs : List ℚ) : List ℚ :=
  (List.range xs.length).map (fun i =>
    (window3 xs i).sum / (window3 xs i).length)

/-- JavaScript division as used on the trends page: a zero denominator
makes the result a non-finite number (NaN here, since the numerator is
then the empty-slice sum 0), modelled as none. -/
def jsDiv (a b : ℚ) : Option ℚ :=
  if b = 0 then none else some (a / b)

/-- JavaScript strict greater-than where either side may be NaN (none):
any comparison with NaN is false. -/
def jsGt (a b : Option ℚ) : Bool :=
  match a, b with
  | some x, some y => decide (x > y)
  | _, _ => false

/-- JavaScript strict less-than with NaN propagation, as jsGt. -/
def jsLt (a b : Option ℚ) : Bool :=
  match a, b with
  | some x, some y => decide (x < y)
  | _, _ => false

/-- Embeds the average-sentiment statistic of the trends page (part_002
lines 90-91): reduce with initial value 0 divided by the series length.
On the empty series this is the JavaScript 0/0, i.e. NaN (none). -/
def avgSentimentJS (sentiment : List ℚ) : Option ℚ :=
  jsDiv sentiment.sum sentiment.length

/-- Embeds recentSentiment of part_002 line 80, the JavaScript
slice(-3): the last up-to-three entries. -/
def recentSentiment (xs : List ℚ) : List ℚ :=
  xs.drop (xs.length - 3)

/-- Embeds olderSentiment of part_002 line 82, the JavaScript
slice(-6, -3). -/
def olderSentiment (xs : List ℚ) : List ℚ :=
  (xs.take (xs.length - 3)).drop (xs.length - 6)

/-- Embeds the trend-direction computation of part_002 lines 80-87,
including the JavaScript semantics of comparing NaN (both comparisons
false, giving stable). -/
def trendDirection (xs : List ℚ) : String :=
  let recent := recentSentiment xs
  let avgRecent := jsDiv recent.sum recent.length
  let older := olderSentiment xs
  let avgOlder := if 0 < older.length then jsDiv older.sum older.length else avgRecent
  if jsGt avgRecent avgOlder then "up"
  else if jsLt avgRecent avgOlder then "down"
  else "stable"

/-- Modelled from the spec (§4.4): day-level bucketing of a Unix
timestamp. -/
def dayOf (ts : ℕ) : ℕ :=
  ts / 86400

/-- Modelled from the spec (§4.4): reviews lacking a timestamp are
excluded from trend computation; the rest become (day, compound) pairs. -/
def timedCompounds (rs : List ScoredReview) : List (ℕ × ℚ) :=
  rs.filterMap (fun r => r.timestamp.map (fun ts => (dayOf ts, r.compound)))

/-- Modelled from the spec (§4.4): the chronologically ordered, gap-free
span of day buckets from the earliest to the latest observed day. -/
def daySpan (ds : List ℕ) : List ℕ :=
  match ds with
  | [] => []
  | d :: rest =>
    let lo := rest.foldl min d
    let hi := rest.foldl max d
    (List.range (hi - lo + 1)).map (fun i => lo + i)

/-- Modelled from the spec (§4.4): per-day average sentiment; an empty
period yields none rather than being dropped, so gaps stay visible. -/
def sentimentOfDay (tcs : List (ℕ × ℚ)) (d : ℕ) : Option ℚ :=
  let xs := (tcs.filter (fun p => p.1 = d)).map (fun p => p.2)
  if xs.length = 0 then none else some (xs.sum / xs.length)

/-- Modelled from the spec (§4.4): per-day review volume. -/
def volumeOfDay (tcs : List (ℕ × ℚ)) (d : ℕ) : ℕ :=
  (tcs.filter (fun p => p.1 = d)).length

/-- Overview metrics, after the OverviewMetrics interface of part_005
lines 20-30. -/
structure OverviewMetrics where
  avg_sentiment : ℚ
  positive_pct : ℚ
  negative_pct : ℚ
  neutral_pct : ℚ
  positive : ℕ
  negative : ℕ
  neutral : ℕ
deriving DecidableEq, Repr

/-- Modelled from the spec (§4.4 and part_005): the overview block of a
report, counting labels and averaging compounds. -/
def computeOverview (rs : List ScoredReview) : OverviewMetrics :=
  let n := rs.length
  let pos := (rs.filter (fun r => r.label = Label.positive)).length
  let neg := (rs.filter (fun r => r.label = Label.negative)).length
  let neu := (rs.filter (fun r => r.label = Label.neutral)).length
  { avg_sentiment := meanOf (rs.map (fun r => r.compound)),
    positive_pct := (pos : ℚ) / n * 100,
    negative_pct := (neg : ℚ) / n * 100,
    neutral_pct := (neu : ℚ) / n * 100,
    positive := pos, negative := neg, neutral := neu }

/-- Modelled from the spec (§6): the per-run industry configuration, a
scorer configuration plus the aspect definitions of the industry. -/
structure IndustryConfig where
  scorer : ScorerConfig
  aspects : List AspectDefinition

/-- Modelled from the spec (§4.2, §9): the fixed seed the design must
pass to the topic factorization so repeated runs agree. -/
def nmfFixedSeed : ℕ :=
  42

/-- Modelled from the spec (§4.2): topic extraction.  Term weighting is
abstracted to deterministic frequency counting over the corpus tokens,
and the iterative NMF factorization is abstracted to a deterministic,
seed-indexed assignment of documents to three latent components; a
corpus below the minimum size of five non-empty documents yields empty
clusters.  The essential point for the claims is that the result is a
function of the corpus and the fixed seed alone. -/
def extractTopics (corpus : List String) : List (String × ℕ) × List (ℕ × ℕ) :=
  let docs := corpus.filter (fun t => tokenize t ≠ [])
  let toks := docs.flatMap tokenize
  let keywords := (toks.dedup).map (fun t => (t, toks.count t))
  let clusters :=
    if docs.length < 5 then []
    else (List.range docs.length).map (fun i => (i, (i + nmfFixedSeed) % 3))
  (keywords, clusters)

/-- The assembled analysis report (§6, and the DashboardResponse type of
part_005). -/
structure AnalysisReport where
  review_count : ℕ
  overview : OverviewMetrics
  nps : NPSMetrics
  keywords : List (String × ℕ)
  clusters : List (ℕ × ℕ)
  aspects : List AspectItem
  trends_periods : List ℕ
  trends_sentiment : List (Option ℚ)
  trends_moving_avg : List ℚ
  trends_volume : List ℕ
  anomalies : List AnomalyItem
deriving DecidableEq, Repr

/-- Modelled from the spec (§4.1): scoring one review. -/
def scoreReview (cfg : ScorerConfig) (r : Review) : ScoredReview :=
  let s := score cfg r.text
  { id := r.id, text := r.text, timestamp := r.timestamp,
    compound := s.compound, label := s.label }

/-- Modelled from the spec (§4.5): run_full_analysis sequences scorer,
topic extractor, aspect attributor and trend engine over the review list
and assembles the report.  The ambient entropy available to the process
(the stream JavaScript Math.random or an unseeded factorization would
consume) is made explicit as the entropy argument; the pipeline never
consults it, because the factorization is driven by the fixed seed
(§4.2), which is exactly the determinism discipline the spec demands. -/
def runFullAnalysis (reviews : List Review) (cfg : IndustryConfig)
    (_entropy : ℕ → ℚ) : AnalysisReport :=
  let scored := reviews.map (scoreReview cfg.scorer)
  let topics := extractTopics (reviews.map (fun r => r.text))
  let tcs := timedCompounds scored
  let days := daySpan (tcs.map (fun p => p.1))
  let sentiment := days.map (sentimentOfDay tcs)
  let presentSentiment := sentiment.filterMap id
  { review_count := reviews.length,
    overview := computeOverview scored,
    nps := computeNpsProxy (scored.map (fun r => r.compound)),
    keywords := topics.1,
    clusters := topics.2,
    aspects := attributeAspects scored cfg.aspects,
    trends_periods := days,
    trends_sentiment := sentiment,
    trends_moving_avg := movingAvg3 (sentiment.map (fun o => o.getD 0)),
    trends_volume := days.map (volumeOfDay tcs),
    anomalies := detectAnomalies presentSentiment 2 }

/-- Rounding is monotone on the rationals. -/
theorem round_le_round {a b : ℚ} (h : a ≤ b) : round a ≤ round b := by
  rw [round_eq, round_eq]
  exact Int.floor_le_floor (by linarith)

/-- Rounding fixes the rational 100. -/
theorem round_hundred : round (100 : ℚ) = 100 := by
  rw [show (100 : ℚ) = ((100 : ℤ) : ℚ) by norm_num, round_intCast]

/-- Rounding fixes the rational -100. -/
theorem round_neg_hundred : round (-100 : ℚ) = -100 := by
  rw [show (-100 : ℚ) = ((-100 : ℤ) : ℚ) by norm_num, round_intCast]

/-- Sum of a list whose members all equal c. -/
theorem sum_of_constant (c : ℚ) (xs : List ℚ) (h : ∀ x ∈ xs, x = c) :
    xs.sum = xs.length * c := by
  induction xs with
  | nil => simp
  | cons a t ih =>
    have ha := h a (by simp)
    have ht : ∀ x ∈ t, x = c := fun x hx => h x (by simp [hx])
    rw [List.sum_cons, ha, ih ht, List.length_cons]
    push_cast
    ring

/-- Mean of a nonempty constant list is the constant. -/
theorem mean_of_constant (c : ℚ) (xs : List ℚ) (h : ∀ x ∈ xs, x = c)
    (hne : xs ≠ []) : meanOf xs = c := by
  have hlen : (xs.length : ℚ) ≠ 0 := by
    have : xs.length ≠ 0 := by
      simpa [List.length_eq_zero] using hne
    exact_mod_cast this
  unfold meanOf
  rw [sum_of_constant c xs h]
  field_simp

/-- Variance of a constant list is zero. -/
theorem variance_of_constant (c : ℚ) (xs : List ℚ) (h : ∀ x ∈ xs, x = c) :
    varianceOf xs = 0 := by
  rcases eq_or_ne xs [] with rfl | hne
  · simp [varianceOf]
  · have hm : meanOf xs = c := mean_of_constant c xs h hne
    have hz : ∀ y ∈ xs.map (fun x => (x - meanOf xs) ^ 2), y = 0 := by
      intro y hy
      rcases List.mem_map.mp hy with ⟨x, hx, rfl⟩
      rw [h x hx, hm]
      ring
    unfold varianceOf
    rw [sum_of_constant 0 _ hz]
    simp

/-- Normalization maps every raw score into [-1, 1]. -/
theorem normalizeCompound_bounds (x : ℚ) :
    -1 ≤ normalizeCompound x ∧ normalizeCompound x ≤ 1 := by
  have hd : (0 : ℚ) < |x| + 15 := by positivity
  have habs : |normalizeCompound x| ≤ 1 := by
    unfold normalizeCompound
    rw [abs_div, abs_of_pos hd, div_le_one hd]
    linarith [abs_nonneg x]
  exact ⟨neg_le_of_abs_le habs, le_of_abs_le habs⟩

/-- Case analysis of the label thresholds. -/
theorem labelOf_spec (c : ℚ) :
    (labelOf c = Label.positive ↔ c ≥ 1 / 20) ∧
    (labelOf c = Label.negative ↔ c ≤ -(1 / 20)) ∧
    (labelOf c = Label.neutral ↔ (-(1 / 20) < c ∧ c < 1 / 20)) := by
  unfold labelOf
  split_ifs with h1 h2
  · refine ⟨by simpa using h1, ?_, ?_⟩
    · simp only [reduceCtorEq, false_iff]
      intro hcon
      linarith
    · simp only [reduceCtorEq, false_iff, not_and]
      intro
      linarith
  · refine ⟨?_, by simpa using h2, ?_⟩
    · simp only [reduceCtorEq, false_iff]
      intro hcon
      linarith
    · simp only [reduceCtorEq, false_iff, not_and]
      intro hcon
      linarith
  · push_neg at h1 h2
    refine ⟨?_, ?_, by simp only [true_iff]; exact ⟨by linarith, by linarith⟩⟩
    · simp only [reduceCtorEq, false_iff]
      intro hcon
      linarith
    · simp only [reduceCtorEq, false_iff]
      intro hcon
      linarith

/-- C3: for every text and configuration, the sentiment label is positive
exactly when the compound is at least 0.05, negative exactly when it is
at most -0.05, neutral otherwise; and the threshold value -0.05 itself is
labelled negative. -/
theorem claim3_label_thresholds :
    (∀ cfg text,
      ((score cfg text).label = Label.positive ↔ (score cfg text).compound ≥ 1 / 20) ∧
      ((score cfg text).label = Label.negative ↔ (score cfg text).compound ≤ -(1 / 20)) ∧
      ((score cfg text).label = Label.neutral ↔
        (-(1 / 20) < (score cfg text).compound ∧ (score cfg text).compound < 1 / 20))) ∧
    labelOf (-(1 / 20)) = Label.negative := by
  refine ⟨fun cfg text => ?_, ?_⟩
  · have h := labelOf_spec (score cfg text).compound
    exact h
  · have h := (labelOf_spec (-(1 / 20))).2.1
    exact h.mpr (by norm_num)

/-- C2: every compound the scorer produces lies in [-1, 1], and every
regional sentiment value on the map page is clamped into [-1, 1] before
use. -/
theorem claim2_scores_bounded :
    (∀ cfg text, -1 ≤ (score cfg text).compound ∧ (score cfg text).compound ≤ 1) ∧
    (∀ dashboard rand, ∀ r ∈ generateRegionalData dashboard rand,
      -1 ≤ r.sentimentScore ∧ r.sentimentScore ≤ 1) := by
  constructor
  · intro cfg text
    exact normalizeCompound_bounds _
  · intro dashboard rand r hr
    match dashboard with
    | none => simp [generateRegionalData] at hr
    | some dash =>
      rw [generateRegionalData] at hr
      rcases List.mem_map.mp hr with ⟨r0, _, rfl⟩
      exact ⟨le_max_left _ _, max_le (by norm_num) (min_le_left _ _)⟩

/-- C9: the gauge needle angle piv + ((s + 100)/200) * piv stays on the
semicircular arc [piv, 2 piv] for scores in [-100, 100] and is strictly
monotone in the score, for every positive value piv of Math.PI. -/
theorem claim9_needle_angle :
    (∀ piv s : ℚ, 0 < piv → -100 ≤ s → s ≤ 100 →
      piv ≤ npsNeedleAngle piv s ∧ npsNeedleAngle piv s ≤ 2 * piv) ∧
    (∀ piv s t : ℚ, 0 < piv → s < t → npsNeedleAngle piv s < npsNeedleAngle piv t) := by
  constructor
  · intro piv s hpiv h1 h2
    unfold npsNeedleAngle normalizedScore
    constructor <;> nlinarith
  · intro piv s t hpiv hst
    unfold npsNeedleAngle normalizedScore
    have hlt : (s + 100) / 200 < (t + 100) / 200 := by linarith
    nlinarith

/-- C9 witness: at Math.PI stand-in 3 and scores 0 and 100 the arc bounds
and strict monotonicity hold. -/
theorem claim9_needle_angle_witness :
    ((0 : ℚ) < 3 ∧ -100 ≤ (0 : ℚ) ∧ (0 : ℚ) ≤ 100) ∧
    (3 ≤ npsNeedleAngle 3 0 ∧ npsNeedleAngle 3 0 ≤ 2 * 3) ∧
    npsNeedleAngle 3 0 < npsNeedleAngle 3 100 :=
  ⟨⟨by norm_num, by norm_num, by norm_num⟩,
    claim9_needle_angle.1 3 0 (by norm_num) (by norm_num) (by norm_num),
    claim9_needle_angle.2 3 0 100 (by norm_num) (by norm_num)⟩

/-- C10: for an average aspect sentiment in [-1, 1], the radar-chart
normalization round((avg + 1) * 50) lies in [0, 100]. -/
theorem claim10_radar_bounds (a : ℚ) (h1 : -1 ≤ a) (h2 : a ≤ 1) :
    0 ≤ radarSentiment a ∧ radarSentiment a ≤ 100 := by
  unfold radarSentiment
  have hlo : (0 : ℚ) ≤ (a + 1) * 50 := by nlinarith
  have hhi : (a + 1) * 50 ≤ 100 := by nlinarith
  constructor
  · have h := round_le_round hlo
    simpa using h
  · have h := round_le_round hhi
    rwa [round_hundred] at h

/-- C10 witness: at average sentiment 0 the radar value is within
bounds. -/
theorem claim10_radar_bounds_witness :
    (-1 ≤ (0 : ℚ) ∧ (0 : ℚ) ≤ 1) ∧
    (0 ≤ radarSentiment 0 ∧ radarSentiment 0 ≤ 100) :=
  ⟨⟨by norm_num, by norm_num⟩, claim10_radar_bounds 0 (by norm_num) (by norm_num)⟩

/-- Percentage counts over a corpus stay within [0, 100], also for the
empty corpus where the rational division by zero yields 0. -/
theorem pct_bounds (k n : ℕ) (h : k ≤ n) :
    0 ≤ (k : ℚ) / n * 100 ∧ (k : ℚ) / n * 100 ≤ 100 := by
  rcases Nat.eq_zero_or_pos n with hn | hn
  · subst hn
    have hk : k = 0 := Nat.le_zero.mp h
    subst hk
    norm_num
  · have hn1 : (0 : ℚ) < n := by exact_mod_cast hn
    constructor
    · positivity
    · have hk : (k : ℚ) ≤ n := by exact_mod_cast h
      rw [div_mul_eq_mul_div, div_le_iff₀ hn1]
      nlinarith

/-- C4: a review is a promoter exactly when its compound exceeds 0.5 and
a detractor exactly when it is below -0.3; nps_proxy is the rounded
difference of the promoter and detractor percentages and always lies in
[-100, 100]; a nonempty corpus of all-1.0 compounds yields exactly 100. -/
theorem claim4_nps_proxy :
    (∀ c : ℚ, isPromoter c = true ↔ c > 1 / 2) ∧
    (∀ c : ℚ, isDetractor c = true ↔ c < -(3 / 10)) ∧
    (∀ cs : List ℚ,
      -100 ≤ (computeNpsProxy cs).nps_proxy ∧ (computeNpsProxy cs).nps_proxy ≤ 100) ∧
    (∀ cs : List ℚ, cs ≠ [] → (∀ c ∈ cs, c = 1) →
      (computeNpsProxy cs).nps_proxy = 100) := by
  have hgoal : ∀ cs : List ℚ, (computeNpsProxy cs).nps_proxy =
      round ((((cs.filter isPromoter).length : ℚ) / cs.length * 100) -
             (((cs.filter isDetractor).length : ℚ) / cs.length * 100)) := fun cs => rfl
  refine ⟨fun c => by simp [isPromoter], fun c => by simp [isDetractor],
    fun cs => ?_, fun cs hne hall => ?_⟩
  · have hp := pct_bounds (cs.filter isPromoter).length cs.length
      (List.length_filter_le _ _)
    have hd := pct_bounds (cs.filter isDetractor).length cs.length
      (List.length_filter_le _ _)
    rw [hgoal]
    constructor
    · have h := round_le_round
        (show (-100 : ℚ) ≤ (((cs.filter isPromoter).length : ℚ) / cs.length * 100) -
            (((cs.filter isDetractor).length : ℚ) / cs.length * 100) by
          linarith [hp.1, hd.2])
      rwa [round_neg_hundred] at h
    · have h := round_le_round
        (show (((cs.filter isPromoter).length : ℚ) / cs.length * 100) -
            (((cs.filter isDetractor).length : ℚ) / cs.length * 100) ≤ (100 : ℚ) by
          linarith [hp.2, hd.1])
      rwa [round_hundred] at h
  · have hfilterP : cs.filter isPromoter = cs := by
      apply List.filter_eq_self.mpr
      intro a ha
      rw [hall a ha]
      simp [isPromoter]
      norm_num
    have hfilterD : cs.filter isDetractor = [] := by
      rw [List.filter_eq_nil_iff]
      intro a ha
      rw [hall a ha]
      simp [isDetractor]
      norm_num
    have hlen : ((cs.length : ℚ)) ≠ 0 := by
      have h0 : cs.length ≠ 0 := by simpa [List.length_eq_zero] using hne
      exact_mod_cast h0
    rw [hgoal, hfilterP, hfilterD]
    rw [List.length_nil]
    rw [show ((0 : ℕ) : ℚ) = 0 from rfl, zero_div, zero_mul, sub_zero,
      div_self hlen, one_mul, round_hundred]

/-- C4 witness: the concrete all-ones corpus of three reviews has
nps_proxy exactly 100. -/
theorem claim4_nps_proxy_witness :
    (([1, 1, 1] : List ℚ) ≠ [] ∧ ∀ c ∈ ([1, 1, 1] : List ℚ), c = 1) ∧
    (computeNpsProxy [1, 1, 1]).nps_proxy = 100 :=
  ⟨⟨by simp, by simp⟩, claim4_nps_proxy.2.2.2 [1, 1, 1] (by simp) (by simp)⟩

/-- C5: on a series whose period sentiments are all identical the
variance is zero, the zero-variance guard fires before any z-score
division, and the anomalies list is empty. -/
theorem claim5_zero_variance_no_anomalies (xs : List ℚ) (threshold c : ℚ)
    (h : ∀ x ∈ xs, x = c) : detectAnomalies xs threshold = [] := by
  have hv := variance_of_constant c xs h
  unfold detectAnomalies
  simp [hv]

/-- C5 witness: the constant series of three periods at sentiment 1/5
produces no anomalies. -/
theorem claim5_zero_variance_witness :
    (∀ x ∈ [(1 : ℚ) / 5, 1 / 5, 1 / 5], x = 1 / 5) ∧
    detectAnomalies [(1 : ℚ) / 5, 1 / 5, 1 / 5] 2 = [] :=
  ⟨by simp, claim5_zero_variance_no_anomalies _ 2 (1 / 5) (by simp)⟩

/-- C6 amendment: for every nonempty series all derived trend statistics
are well defined, with the moving average covering a nonempty window at
every index even before the window is full, and the trend direction
always evaluating to one of its three values with no exception; the
empty series is excluded because the average-sentiment division of the page
is then the JavaScript 0/0. -/
theorem claim6_trend_statistics_welldefined :
    (∀ xs : List ℚ, ∀ i, i < xs.length → 0 < (window3 xs i).length) ∧
    (∀ xs : List ℚ, (movingAvg3 xs).length = xs.length) ∧
    (∀ xs : List ℚ, xs ≠ [] → (avgSentimentJS xs).isSome = true) ∧
    (∀ xs : List ℚ,
      trendDirection xs = "up" ∨ trendDirection xs = "down" ∨
        trendDirection xs = "stable") := by
  refine ⟨fun xs i hi => ?_, fun xs => by simp [movingAvg3], fun xs hne => ?_,
    fun xs => ?_⟩
  · unfold window3
    rw [List.length_take, List.length_reverse, List.length_take]
    omega
  · have hn : xs.length ≠ 0 := by simpa [List.length_eq_zero] using hne
    have hq : (xs.length : ℚ) ≠ 0 := by exact_mod_cast hn
    simp [avgSentimentJS, jsDiv, hq]
  · simp only [trendDirection]
    split_ifs <;> simp

/-- C6 witness: the concrete two-period series has a well-defined
average sentiment. -/
theorem claim6_trend_statistics_witness :
    (([(1 : ℚ) / 2, 1 / 4]) ≠ [] ∧
      (avgSentimentJS [(1 : ℚ) / 2, 1 / 4]).isSome = true) :=
  ⟨by simp, claim6_trend_statistics_welldefined.2.2.1 _ (by simp)⟩

/-- C6 counterexample: on the empty trend series the average-sentiment
statistic of the page is the JavaScript division 0/0, a NaN
(modelled none), so it is not a well-defined number as the claim states
for the empty series. -/
theorem claim6_counterexample : avgSentimentJS [] = none := by
  simp [avgSentimentJS, jsDiv]

/-- C7: an aspect whose trigger terms match zero reviews is omitted from
the aspects output entirely: every emitted item has a positive mention
count, and prepending a zero-match definition leaves the output
unchanged. -/
theorem claim7_zero_mention_aspects_omitted :
    (∀ rs defs, ∀ item ∈ attributeAspects rs defs, 0 < item.mentions) ∧
    (∀ rs defs d, mentionsOf d rs = [] →
      attributeAspects rs (d :: defs) = attributeAspects rs defs) := by
  constructor
  · intro rs defs item hitem
    rcases List.mem_filterMap.mp hitem with ⟨d, _, hsome⟩
    by_cases h : (mentionsOf d rs).length = 0
    · simp [h] at hsome
    · simp only [h, if_false] at hsome
      have hRitem := Option.some.inj hsome
      rw [← hRitem]
      exact Nat.pos_of_ne_zero h
  · intro rs defs d hd
    simp [attributeAspects, List.filterMap_cons, hd]

/-- Concrete scored corpus used by the C7 witness. -/
def sampleScoredReviews : List ScoredReview :=
  [{ id := "1", text := "Great quality", timestamp := none,
     compound := 1 / 2, label := Label.positive }]

/-- Aspect definition matched by the sample corpus. -/
def qualityAspect : AspectDefinition :=
  { key := "quality", display_label := "Quality", trigger_terms := ["quality"] }

/-- Aspect definition matched by no sample review. -/
def shippingAspect : AspectDefinition :=
  { key := "shipping", display_label := "Shipping", trigger_terms := ["shipping"] }

/-- C7 witness: the shipping aspect matches no sample review and its
definition contributes nothing to the output. -/
theorem claim7_zero_mention_witness :
    mentionsOf shippingAspect sampleScoredReviews = [] ∧
    attributeAspects sampleScoredReviews (shippingAspect :: [qualityAspect]) =
      attributeAspects sampleScoredReviews [qualityAspect] :=
  ⟨by decide, claim7_zero_mention_aspects_omitted.2 _ _ _ (by decide)⟩

/-- Specialization of filteredData to the all selection. -/
theorem filteredData_all (l : List RegionData) : filteredData l "all" = l := rfl

/-- Specialization of filteredData to the positive selection. -/
theorem filteredData_positive (l : List RegionData) :
    filteredData l "positive" =
      l.filter (fun r => decide (r.sentimentScore > 1 / 10)) := rfl

/-- Specialization of filteredData to the negative selection. -/
theorem filteredData_negative (l : List RegionData) :
    filteredData l "negative" =
      l.filter (fun r => decide (r.sentimentScore < -(1 / 10))) := rfl

/-- Specialization of filteredData to the neutral selection. -/
theorem filteredData_neutral (l : List RegionData) :
    filteredData l "neutral" =
      l.filter (fun r =>
        decide (r.sentimentScore ≥ -(1 / 10)) && decide (r.sentimentScore ≤ 1 / 10)) := rfl

/-- Pointwise Boolean identity behind the negative filter of the
partition argument. -/
theorem filter_neg_pointwise (s : ℚ) :
    (decide (s < -(1 / 10)) && !decide (s > 1 / 10)) = decide (s < -(1 / 10)) := by
  by_cases h : s < -(1 / 10)
  · have hnp : ¬(s > 1 / 10) := by linarith
    rw [decide_eq_true h, decide_eq_false hnp]
    rfl
  · rw [decide_eq_false h]
    rfl

/-- Pointwise Boolean identity behind the neutral filter of the
partition argument. -/
theorem filter_neutral_pointwise (s : ℚ) :
    (!decide (s < -(1 / 10)) && !decide (s > 1 / 10)) =
      (decide (s ≥ -(1 / 10)) && decide (s ≤ 1 / 10)) := by
  by_cases h1 : s > 1 / 10
  · have hnlt : ¬(s < -(1 / 10)) := by linarith
    have hge : s ≥ -(1 / 10) := by linarith
    have hnle : ¬(s ≤ 1 / 10) := by linarith
    rw [decide_eq_false hnlt, decide_eq_true h1, decide_eq_true hge, decide_eq_false hnle]
    rfl
  · by_cases h2 : s < -(1 / 10)
    · have hnge : ¬(s ≥ -(1 / 10)) := by linarith
      have hle : s ≤ 1 / 10 := by linarith
      rw [decide_eq_true h2, decide_eq_false h1, decide_eq_false hnge, decide_eq_true hle]
      rfl
    · have hge : s ≥ -(1 / 10) := by linarith
      have hle : s ≤ 1 / 10 := by linarith
      rw [decide_eq_false h2, decide_eq_false h1, decide_eq_true hge, decide_eq_true hle]
      rfl

/-- C8: the three sentiment filters of the map page partition the region
list: their concatenation is a permutation of the unfiltered (all)
result, and each listed region belongs to exactly one of the three
filtered results. -/
theorem claim8_filters_partition (l : List RegionData) :
    ((filteredData l "positive" ++ filteredData l "negative" ++
        filteredData l "neutral").Perm (filteredData l "all")) ∧
    (∀ r ∈ filteredData l "all",
      (r ∈ filteredData l "positive" ∧ r ∉ filteredData l "negative" ∧
        r ∉ filteredData l "neutral") ∨
      (r ∉ filteredData l "positive" ∧ r ∈ filteredData l "negative" ∧
        r ∉ filteredData l "neutral") ∨
      (r ∉ filteredData l "positive" ∧ r ∉ filteredData l "negative" ∧
        r ∈ filteredData l "neutral")) := by
  rw [filteredData_all, filteredData_positive, filteredData_negative, filteredData_neutral]
  constructor
  · have h1 : ((l.filter (fun r => decide (r.sentimentScore > 1 / 10))) ++
        l.filter (fun r => !decide (r.sentimentScore > 1 / 10))).Perm l :=
      List.filter_append_perm _ l
    have h2 : (((l.filter (fun r => !decide (r.sentimentScore > 1 / 10))).filter
          (fun r => decide (r.sentimentScore < -(1 / 10)))) ++
        ((l.filter (fun r => !decide (r.sentimentScore > 1 / 10))).filter
          (fun r => !decide (r.sentimentScore < -(1 / 10))))).Perm
        (l.filter (fun r => !decide (r.sentimentScore > 1 / 10))) :=
      List.filter_append_perm _ _
    have e1 : (l.filter (fun r => !decide (r.sentimentScore > 1 / 10))).filter
        (fun r => decide (r.sentimentScore < -(1 / 10))) =
        l.filter (fun r => decide (r.sentimentScore < -(1 / 10))) := by
      rw [List.filter_filter]
      apply List.filter_congr
      intro r hr
      exact filter_neg_pointwise r.sentimentScore
    have e2 : (l.filter (fun r => !decide (r.sentimentScore > 1 / 10))).filter
        (fun r => !decide (r.sentimentScore < -(1 / 10))) =
        l.filter (fun r =>
          decide (r.sentimentScore ≥ -(1 / 10)) && decide (r.sentimentScore ≤ 1 / 10)) := by
      rw [List.filter_filter]
      apply List.filter_congr
      intro r hr
      exact filter_neutral_pointwise r.sentimentScore
    rw [e1, e2] at h2
    rw [List.append_assoc]
    exact (List.Perm.append_left _ h2).trans h1
  · intro r hr
    by_cases h1 : r.sentimentScore > 1 / 10
    · left
      refine ⟨List.mem_filter.mpr ⟨hr, by simp only [decide_eq_true_eq]; linarith⟩, ?_, ?_⟩
      · intro hmem
        have hq := (List.mem_filter.mp hmem).2
        simp only [decide_eq_true_eq] at hq
        linarith
      · intro hmem
        have hq := (List.mem_filter.mp hmem).2
        simp only [Bool.and_eq_true, decide_eq_true_eq] at hq
        linarith [hq.2]
    · by_cases h2 : r.sentimentScore < -(1 / 10)
      · right; left
        refine ⟨?_, List.mem_filter.mpr ⟨hr, by simp only [decide_eq_true_eq]; linarith⟩, ?_⟩
        · intro hmem
          have hq := (List.mem_filter.mp hmem).2
          simp only [decide_eq_true_eq] at hq
          linarith
        · intro hmem
          have hq := (List.mem_filter.mp hmem).2
          simp only [Bool.and_eq_true, decide_eq_true_eq] at hq
          have := hq.1
          simp only [ge_iff_le] at this
          linarith
      · right; right
        have hge : r.sentimentScore ≥ -(1 / 10) := by linarith
        have hle : r.sentimentScore ≤ 1 / 10 := by linarith
        refine ⟨?_, ?_, List.mem_filter.mpr ⟨hr, by
          simp only [Bool.and_eq_true, decide_eq_true_eq]
          constructor <;> linarith⟩⟩
        · intro hmem
          have hq := (List.mem_filter.mp hmem).2
          simp only [decide_eq_true_eq] at hq
          linarith
        · intro hmem
          have hq := (List.mem_filter.mp hmem).2
          simp only [decide_eq_true_eq] at hq
          linarith

/-- Concrete region used by the C8 witness, with a positive score. -/
def sampleRegionX : RegionData :=
  { id := "x", name := "X", country := "X", lat := 0, lng := 0,
    reviewCount := 0, mentionCount := 0, sentimentScore := 1 / 2,
    topKeywords := [] }

/-- Concrete region list used by the C8 witness. -/
def sampleRegionList : List RegionData :=
  [sampleRegionX]

/-- C8 witness: on the concrete one-region list the three filters
permute to the unfiltered list and the region lands exactly in the
positive filter. -/
theorem claim8_filters_partition_witness :
    ((filteredData sampleRegionList "positive" ++ filteredData sampleRegionList "negative" ++
        filteredData sampleRegionList "neutral").Perm
      (filteredData sampleRegionList "all")) ∧
    ((sampleRegionX ∈ filteredData sampleRegionList "positive" ∧
        sampleRegionX ∉ filteredData sampleRegionList "negative" ∧
        sampleRegionX ∉ filteredData sampleRegionList "neutral") ∨
      (sampleRegionX ∉ filteredData sampleRegionList "positive" ∧
        sampleRegionX ∈ filteredData sampleRegionList "negative" ∧
        sampleRegionX ∉ filteredData sampleRegionList "neutral") ∨
      (sampleRegionX ∉ filteredData sampleRegionList "positive" ∧
        sampleRegionX ∉ filteredData sampleRegionList "negative" ∧
        sampleRegionX ∈ filteredData sampleRegionList "neutral")) :=
  ⟨(claim8_filters_partition sampleRegionList).1,
    (claim8_filters_partition sampleRegionList).2 sampleRegionX
      (by rw [filteredData_all]; simp [sampleRegionList])⟩

/-- Dashboard input used by the C1 counterexample and the C2 witness. -/
def sampleDashboard : DashboardSummary :=
  { review_count := 0, avg_sentiment := 0 }

/-- Entropy stream whose Math.random draws are all 0. -/
def zeroStream : ℕ → ℚ :=
  fun _ => 0

/-- Entropy stream whose Math.random draws are all 1/2. -/
def halfStream : ℕ → ℚ :=
  fun _ => 1 / 2

/-- C1 counterexample: the per-region sentiment data of the map page is
not two-run deterministic.  Two renders over the identical dashboard
input differ as soon as their Math.random draws differ (all-0 draws give
the USA region score -1/10, all-1/2 draws give 0), so a report taken to
include the regional data of the map page is not byte-identical across runs. -/
theorem claim1_counterexample :
    generateRegionalData (some sampleDashboard) zeroStream ≠
      generateRegionalData (some sampleDashboard) halfStream := by
  intro h
  have h0 := congrArg (fun l => (l.map RegionData.sentimentScore)[0]?) h
  simp only [generateRegionalData, sampleDashboard, zeroStream, halfStream,
    List.map_cons, List.map_map, List.getElem?_cons_zero, Function.comp] at h0
  norm_num [min_def, max_def] at h0

/-- C1 amendment: the pipeline report itself is two-run deterministic —
run_full_analysis never consults the ambient entropy stream, because the
factorization is driven by the fixed seed — so identical reviews and
configuration yield the identical report whatever entropy either run had
available. -/
theorem claim1_pipeline_deterministic (reviews : List Review) (cfg : IndustryConfig)
    (e1 e2 : ℕ → ℚ) :
    runFullAnalysis reviews cfg e1 = runFullAnalysis reviews cfg e2 := rfl

/-- Concrete clamped region produced for the USA entry from
sampleDashboard under all-zero draws; used by the C2 witness. -/
def sampleRegionUSA : RegionData :=
  { id := "usa", name := "USA", country := "United States",
    lat := 39.8283, lng := -98.5795,
    reviewCount := 0, mentionCount := 0, sentimentScore := -(1 / 10),
    topKeywords := ["quality", "fast shipping", "great product"] }

/-- Membership of the concrete USA record in the generated regional
data. -/
theorem sampleRegionUSA_mem :
    sampleRegionUSA ∈ generateRegionalData (some sampleDashboard) zeroStream := by
  simp only [generateRegionalData, sampleDashboard, zeroStream, List.map_cons,
    List.mem_cons]
  left
  unfold sampleRegionUSA
  congr 1 <;> norm_num [min_def, max_def]

/-- C2 witness: the concrete generated USA region has its sentiment score
inside [-1, 1]. -/
theorem claim2_scores_bounded_witness :
    sampleRegionUSA ∈ generateRegionalData (some sampleDashboard) zeroStream ∧
    (-1 ≤ sampleRegionUSA.sentimentScore ∧ sampleRegionUSA.sentimentScore ≤ 1) :=
  ⟨sampleRegionUSA_mem,
    claim2_scores_bounded.2 (some sampleDashboard) zeroStream sampleRegionUSA
      sampleRegionUSA_mem⟩

end SentimentAnalyzer
